import Mathlib

/-!
Shallow embedding of the network-troubleshooter core of `ca/ca.py`.

External collaborators (scapy's `sr1`, `socket.inet_aton`/`inet_pton`,
`socket.gethostbyname`, dnspython's resolver, `requests.get`, and the
local-address socket dance) are modelled as oracle fields of an `Env`
record; the Python control flow over those oracles is translated
directly.  Exceptions raised by collaborators are explicit constructors
of the oracle result types, and the Python `try/except` classification
is translated as a match on those constructors, so totality of the Lean
functions reflects the "never raises past its boundary" contract.

Observable side effects are made explicit: printed lines are returned as
`List String` (faithful to the f-strings of the source), and the
instrumented `_t` variants additionally return call traces (which
discovery operations ran, which destinations were passed to
`scapy_ping_once`, which `sr1` sends were attempted, which HTTP
endpoints were queried).

Spec-level status names map to the source's strings as follows:
`NO_CAPABILITY` is the source's `"NO_SCAPY"` and `NO_PERMISSION` is the
source's `"NO_PERM"`; the other four coincide.
-/

namespace CA

/-- The fixed closed status set returned by `scapy_ping_once`
(source line: `Return status string: OK | FAILED | NO_SCAPY | NO_PERM |
RESOLVE_FAIL | ERROR`). -/
inductive Status where
  | OK
  | FAILED
  | NO_SCAPY
  | NO_PERM
  | RESOLVE_FAIL
  | ERROR
deriving DecidableEq, Repr

/-- The status string printed by the source for each `Status`. -/
def Status.str : Status → String
  | .OK => "OK"
  | .FAILED => "FAILED"
  | .NO_SCAPY => "NO_SCAPY"
  | .NO_PERM => "NO_PERM"
  | .RESOLVE_FAIL => "RESOLVE_FAIL"
  | .ERROR => "ERROR"

/-- An exception raised inside the `try` block of `scapy_ping_once`:
`PermissionError`, `OSError` (carrying its `str(e)` message), or any
other exception. -/
inductive SR1Exc where
  | permissionError
  | osError (msg : String)
  | otherException
deriving DecidableEq, Repr

/-- Outcome of `sr1(IP(dst=ip)/ICMP(), timeout=...)`: an exception, no
answer before the timeout (`None`), or an answer packet described by
whether it has an ICMP layer and by that layer's `type` field. -/
inductive SR1v4Result where
  | exc (e : SR1Exc)
  | noAnswer
  | answer (hasICMP : Bool) (icmpType : Int)
deriving DecidableEq, Repr

/-- Outcome of `sr1(IPv6(dst=ip)/ICMPv6EchoRequest(), timeout=...)`: an
exception, no answer before the timeout (`None`), or an answer packet
described by whether it has an `ICMPv6EchoReply` layer. -/
inductive SR1v6Result where
  | exc (e : SR1Exc)
  | noAnswer
  | answer (hasEchoReply : Bool)
deriving DecidableEq, Repr

/-- The observable content of a `requests.get` response: whether
`raise_for_status()` passes, the value `r.json().get("ip")` would give
(`none` when `r.json()` itself raises, `some none` when the `"ip"` key
is absent or `None`), and `r.text`. -/
structure HttpResp where
  statusOk : Bool
  jsonIp : Option (Option String)
  text : String
deriving DecidableEq, Repr

/-- Outcome of `requests.get(url, timeout=timeout)`: an exception
(network error), or a response. -/
inductive HttpResult where
  | exc
  | resp (r : HttpResp)
deriving DecidableEq, Repr

/-- The environment of external collaborators the script runs against:
the three module-availability globals, the socket library's literal
parsers and hostname resolution, scapy's send/receive, the
local-address lookup, the dnspython nameserver list (`none` when the
resolver constructor raises), and HTTP lookups. -/
structure Env where
  scapyAvailable : Bool
  dnspythonAvailable : Bool
  requestsAvailable : Bool
  inet_aton_ok : String → Bool
  inet_pton6_ok : String → Bool
  gethostbyname : String → Option String
  sr1v4 : String → Rat → SR1v4Result
  sr1v6 : String → Rat → SR1v6Result
  localIp : Option String
  nameservers : Option (List String)
  http : String → Rat → HttpResult

/-- Python truthiness of an `Optional[str]`: `None` and `""` are falsy. -/
def optTruthy : Option String → Bool
  | none => false
  | some s => s != ""

/-- Whether the character list `p` is an initial segment of `s`. -/
def charsStartWith : List Char → List Char → Bool
  | _, [] => true
  | [], _ :: _ => false
  | c :: s, p :: ps => c == p && charsStartWith s ps

/-- Whether the character list `pat` occurs contiguously in `s`. -/
def hasSubstrChars (pat : List Char) : List Char → Bool
  | [] => charsStartWith [] pat
  | c :: s => charsStartWith (c :: s) pat || hasSubstrChars pat s

/-- Python's substring test `pat in s`. -/
def containsSubstr (s pat : String) : Bool :=
  hasSubstrChars pat.data s.data

/-- Python's `str.strip()`: remove leading and trailing whitespace. -/
def pyStrip (s : String) : String :=
  ⟨((s.data.dropWhile Char.isWhitespace).reverse.dropWhile Char.isWhitespace).reverse⟩

/-- `get_local_ip`: the whole body is one collaborator interaction
(UDP socket dance) returning the local address, with every failure
collapsed to `None`; the oracle carries the outcome. -/
def get_local_ip (env : Env) : Option String :=
  env.localIp

/-- `get_dns_servers`: `[]` when dnspython is unavailable or the
resolver construction raises, otherwise the system nameserver list
verbatim. -/
def get_dns_servers (env : Env) : List String :=
  if env.dnspythonAvailable then
    match env.nameservers with
    | some ns => ns
    | none => []
  else []

/-- The fixed endpoint list of `get_public_ip`, in source order. -/
def publicEndpoints : List (String × String) :=
  [("https://api.ipify.org?format=json", "json"),
   ("https://api64.ipify.org?format=json", "json"),
   ("https://ifconfig.me/ip", "text")]

/-- The `for url, kind in endpoints` loop of `get_public_ip`,
instrumented with the list of URLs actually queried.  A `json` endpoint
continues to the next one on exception, bad status, `r.json()` raising,
a missing/`None` `"ip"` value, or an empty `"ip"` value; a `text`
endpoint returns `r.text.strip()` whenever `raise_for_status()`
passes. -/
def publicLoop (env : Env) (timeout : Rat) :
    List (String × String) → Option String × List String
  | [] => (none, [])
  | (url, kind) :: rest =>
    match env.http url timeout with
    | .exc =>
        let r := publicLoop env timeout rest
        (r.1, url :: r.2)
    | .resp resp =>
        if !resp.statusOk then
          let r := publicLoop env timeout rest
          (r.1, url :: r.2)
        else if kind == "json" then
          match resp.jsonIp with
          | some (some ip) =>
              if ip != "" then (some (pyStrip ip), [url])
              else
                let r := publicLoop env timeout rest
                (r.1, url :: r.2)
          | some none =>
              let r := publicLoop env timeout rest
              (r.1, url :: r.2)
          | none =>
              let r := publicLoop env timeout rest
              (r.1, url :: r.2)
        else (some (pyStrip resp.text), [url])

/-- `get_public_ip`, instrumented with the queried URL list. -/
def get_public_ip_t (env : Env) (timeout : Rat) : Option String × List String :=
  if env.requestsAvailable then publicLoop env timeout publicEndpoints
  else (none, [])

/-- `get_public_ip(timeout)`: `None` when `requests` is unavailable,
otherwise the first usable endpoint value. -/
def get_public_ip (env : Env) (timeout : Rat) : Option String :=
  (get_public_ip_t env timeout).1

/-- `_is_ipv6`: `":" in addr`. -/
def _is_ipv6 (addr : String) : Bool :=
  addr.data.contains ':'

/-- `_resolve_target`: IPv4 literal (`inet_aton` succeeds) or IPv6
literal (`inet_pton(AF_INET6, ...)` succeeds) is returned unchanged as
both name and address; otherwise `gethostbyname`, with any failure
collapsed to `None`. -/
def _resolve_target (env : Env) (target : String) : String × Option String :=
  if env.inet_aton_ok target then (target, some target)
  else if env.inet_pton6_ok target then (target, some target)
  else
    match env.gethostbyname target with
    | some ip => (target, some ip)
    | none => (target, none)

/-- The `except` clauses of `scapy_ping_once`: `PermissionError` gives
`NO_PERM`; an `OSError` whose message contains `"Operation not
permitted"` gives `NO_PERM` and any other `OSError` gives `ERROR`; any
other exception gives `ERROR`. -/
def classifyExc : SR1Exc → Status
  | .permissionError => .NO_PERM
  | .osError msg =>
      if containsSubstr msg "Operation not permitted" then .NO_PERM else .ERROR
  | .otherException => .ERROR

/-- Result of one `scapy_ping_once` call plus its call traces: the
destinations handed to `_resolve_target` and the `sr1` send attempts
(family flag `true` for IPv6, with the packet's destination address). -/
structure PingOut where
  status : Status
  resolveCalls : List String
  sr1Calls : List (Bool × String)
deriving DecidableEq, Repr

/-- `scapy_ping_once`, instrumented with resolution and send traces:
capability check first, then resolution, then family dispatch on `":" ∈
ip`, then one send/receive classified by the reply (or by the exception
raised). -/
def scapy_ping_once_t (env : Env) (dst : String) (timeout : Rat) : PingOut :=
  if !env.scapyAvailable then ⟨.NO_SCAPY, [], []⟩
  else
    match _resolve_target env dst with
    | (_, none) => ⟨.RESOLVE_FAIL, [dst], []⟩
    | (_, some ip) =>
      if _is_ipv6 ip then
        match env.sr1v6 ip timeout with
        | .exc e => ⟨classifyExc e, [dst], [(true, ip)]⟩
        | .noAnswer => ⟨.FAILED, [dst], [(true, ip)]⟩
        | .answer hasEchoReply =>
            ⟨if hasEchoReply then .OK else .FAILED, [dst], [(true, ip)]⟩
      else
        match env.sr1v4 ip timeout with
        | .exc e => ⟨classifyExc e, [dst], [(false, ip)]⟩
        | .noAnswer => ⟨.FAILED, [dst], [(false, ip)]⟩
        | .answer hasICMP ty =>
            ⟨if hasICMP && ty == 0 then .OK else .FAILED, [dst], [(false, ip)]⟩

/-- `scapy_ping_once(dst, timeout)`: the status alone. -/
def scapy_ping_once (env : Env) (dst : String) (timeout : Rat) : Status :=
  (scapy_ping_once_t env dst timeout).status

/-- The banner string printed at startup. -/
def WELCOME : String := "Welcome to the python network troubleshooter!"

/-- Which AddressDiscovery operation ran. -/
inductive DiscoveryCall where
  | localIp
  | dnsServers
  | publicIp
deriving DecidableEq, Repr

/-- The lines printed by `print_network_info`, faithful to its f-strings
and to the Python truthiness tests guarding each branch. -/
def print_network_info_lines (env : Env) : List String :=
  let local_ip := get_local_ip env
  let dns_list := get_dns_servers env
  let public_ip := get_public_ip env 3
  [""]
  ++ [if optTruthy local_ip then "Local IP Address: " ++ local_ip.getD ""
      else "Local IP Address: <could not determine>"]
  ++ [if !dns_list.isEmpty then "DNS Server(s): " ++ String.intercalate ", " dns_list
      else if !env.dnspythonAvailable then "DNS Server(s): <dnspython not installed>"
      else "DNS Server(s): <could not determine>"]
  ++ [if optTruthy public_ip then "Public IP Address: " ++ public_ip.getD ""
      else if !env.requestsAvailable then "Public IP Address: <requests not installed>"
      else "Public IP Address: <could not determine>"]

/-- The discovery operations `print_network_info` performs, in source
order: `get_local_ip()`, `get_dns_servers()`, `get_public_ip()`. -/
def print_network_info_calls : List DiscoveryCall :=
  [.localIp, .dnsServers, .publicIp]

/-- One user-target report line of `print_pings`: resolve the target,
ping the raw target string, print `"name ip: status"` when the target
resolved to a different literal, else `"name: status"`. -/
def userLine (env : Env) (t : String) : String :=
  let r := _resolve_target env t
  let status := scapy_ping_once env t 1
  if optTruthy r.2 && r.1 != r.2.getD "" then
    r.1 ++ " " ++ r.2.getD "" ++ ": " ++ status.str
  else r.1 ++ ": " ++ status.str

/-- The `for ns in dns_list` loop of `print_pings`, returning the
printed lines, the destinations handed to `scapy_ping_once`, and the
`sr1` send attempts, each in order. -/
def dnsPingLoop (env : Env) :
    List String → List String × List String × List (Bool × String)
  | [] => ([], [], [])
  | ns :: rest =>
      let out := scapy_ping_once_t env ns 1
      let r := dnsPingLoop env rest
      (("default DNS Server " ++ ns ++ ": " ++ out.status.str) :: r.1,
       ns :: r.2.1, out.sr1Calls ++ r.2.2)

/-- The `for t in user_targets` loop of `print_pings`, with the same
instrumentation as `dnsPingLoop`. -/
def userPingLoop (env : Env) :
    List String → List String × List String × List (Bool × String)
  | [] => ([], [], [])
  | t :: rest =>
      let out := scapy_ping_once_t env t 1
      let r := userPingLoop env rest
      (userLine env t :: r.1, t :: r.2.1, out.sr1Calls ++ r.2.2)

/-- Observable behaviour of one `print_pings` call: printed lines, the
destinations handed to `scapy_ping_once` in order, and the `sr1` send
attempts in order. -/
structure PingsOut where
  lines : List String
  pingCalls : List String
  sr1Calls : List (Bool × String)
deriving DecidableEq, Repr

/-- `print_pings(user_targets, dns_list)`: the header, the dns section
(or its SKIPPED line), the fixed public resolver 8.8.8.8, then the user
targets. -/
def print_pings_t (env : Env) (user_targets : List String) (dns_list : List String) :
    PingsOut :=
  let d :=
    if !dns_list.isEmpty then dnsPingLoop env dns_list
    else (["default DNS Server <none found>: SKIPPED"], [], [])
  let pubOut := scapy_ping_once_t env "8.8.8.8" 1
  let u := userPingLoop env user_targets
  ⟨"" :: "Pinging ..." ::
     (d.1 ++ ("public DNS Server 8.8.8.8: " ++ pubOut.status.str) :: u.1),
   d.2.1 ++ "8.8.8.8" :: u.2.1,
   d.2.2 ++ pubOut.sr1Calls ++ u.2.2⟩

/-- The parsed command-line flags handed to `main`. -/
structure Args where
  no_ping : Bool
  quiet : Bool
  ping : Option (List String)

/-- Observable behaviour of one `main` run: printed lines, discovery
operations performed, `scapy_ping_once` destinations, `sr1` send
attempts. -/
structure MainOut where
  lines : List String
  discovery : List DiscoveryCall
  pingCalls : List String
  sr1Calls : List (Bool × String)
deriving DecidableEq, Repr

/-- `main`: banner, gather the DNS list once, then either the
info-only early return (`no_ping`, ignoring `quiet`), or
optionally-suppressed network info followed by
`print_pings(args.ping or [], dns_list)`. -/
def main_t (env : Env) (args : Args) : MainOut :=
  let dns_list := get_dns_servers env
  if args.no_ping then
    ⟨["", WELCOME] ++ print_network_info_lines env,
     .dnsServers :: print_network_info_calls, [], []⟩
  else
    let infoL := if !args.quiet then print_network_info_lines env else []
    let infoC := if !args.quiet then print_network_info_calls else []
    let p := print_pings_t env (args.ping.getD []) dns_list
    ⟨["", WELCOME] ++ infoL ++ p.lines,
     .dnsServers :: infoC, p.pingCalls, p.sr1Calls⟩

/-- The dns section of the ping report, as a map over the discovered
list (specification face of `dnsPingLoop`). -/
def dnsLinesSpec (env : Env) (dns : List String) : List String :=
  dns.map (fun ns => "default DNS Server " ++ ns ++ ": " ++ (scapy_ping_once env ns 1).str)

/-- The user section of the ping report, as a map over the user target
list (specification face of `userPingLoop`). -/
def userLinesSpec (env : Env) (users : List String) : List String :=
  users.map (userLine env)

/-- The fixed closed status set named in the docstring of
`scapy_ping_once`. -/
def statusUniverse : List Status :=
  [.OK, .FAILED, .NO_SCAPY, .NO_PERM, .RESOLVE_FAIL, .ERROR]

/-- First endpoint of `get_public_ip` (JSON). -/
def url1 : String := "https://api.ipify.org?format=json"

/-- Second endpoint of `get_public_ip` (JSON). -/
def url2 : String := "https://api64.ipify.org?format=json"

/-- Third endpoint of `get_public_ip` (plain text). -/
def url3 : String := "https://ifconfig.me/ip"

/-- Whether a JSON endpoint outcome makes the `get_public_ip` loop
continue to the next endpoint: network error, bad status, `r.json()`
raising, a missing/`None` `"ip"` value, or an empty `"ip"` value. -/
def jsonFails : HttpResult → Bool
  | .exc => true
  | .resp r =>
      !r.statusOk ||
        (match r.jsonIp with
         | some (some ip) => ip == ""
         | some none => true
         | none => true)

/-- Whether the text endpoint outcome makes the `get_public_ip` loop
continue: network error or bad status (an empty body does not). -/
def textFails : HttpResult → Bool
  | .exc => true
  | .resp r => !r.statusOk

/-- Concrete environment for the C1 witness: scapy present, every
string accepted as an IPv4 literal, every v4 send denied with
`PermissionError`. -/
def envPerm : Env :=
  ⟨true, true, true, fun _ => true, fun _ => false, fun _ => none,
   fun _ _ => .exc .permissionError, fun _ _ => .noAnswer, none, none,
   fun _ _ => .exc⟩

/-- Concrete environment for the C2 counterexample: every collaborator
healthy (local address, nameserver list and public-IP endpoint all
available), so nothing but the control flow can prevent discovery. -/
def envQ : Env :=
  ⟨true, true, true, fun _ => true, fun _ => false, fun _ => none,
   fun _ _ => .noAnswer, fun _ _ => .noAnswer, some "192.168.0.2",
   some ["192.0.2.53"], fun _ _ => .resp ⟨true, some (some "198.51.100.7"), ""⟩⟩

/-- Concrete environment for the C3 end-to-end scenario: discovered DNS
servers `["192.0.2.53"]`, IPv4 literals accepted, `example.invalid`
does not resolve, no echo reply ever arrives. -/
def envScenario : Env :=
  ⟨true, true, true,
   fun s => s == "8.8.8.8" || s == "192.0.2.53", fun _ => false, fun _ => none,
   fun _ _ => .noAnswer, fun _ _ => .noAnswer, some "192.168.0.2",
   some ["192.0.2.53"], fun _ _ => .exc⟩

/-- Concrete environment for the C4 counterexample: both JSON endpoints
fail with a network error; the text endpoint answers with a good status
and a whitespace-only body. -/
def envEmptyText : Env :=
  ⟨true, true, true, fun _ => true, fun _ => false, fun _ => none,
   fun _ _ => .noAnswer, fun _ _ => .noAnswer, none, none,
   fun url _ => if url == "https://ifconfig.me/ip"
                then .resp ⟨true, none, " "⟩ else .exc⟩

/-- Concrete environment for the C4 witness: endpoint 1 fails with a
network error, endpoint 2 answers with a good status and a JSON `ip`
value, endpoint 3 would also succeed (but must not be queried). -/
def envSecond : Env :=
  ⟨true, true, true, fun _ => true, fun _ => false, fun _ => none,
   fun _ _ => .noAnswer, fun _ _ => .noAnswer, none, none,
   fun url _ => if url == "https://api64.ipify.org?format=json"
                then .resp ⟨true, some (some "203.0.113.7"), ""⟩
                else if url == "https://ifconfig.me/ip"
                then .resp ⟨true, none, "203.0.113.99"⟩ else .exc⟩

/-- Concrete environment for the C5 witness: scapy present, nothing is
an IP literal, no hostname resolves. -/
def envC5 : Env :=
  ⟨true, true, true, fun _ => false, fun _ => false, fun _ => none,
   fun _ _ => .noAnswer, fun _ _ => .noAnswer, none, none, fun _ _ => .exc⟩

/-- Concrete environment for the C6 witness: scapy absent, and the
target would otherwise fail to resolve. -/
def envC6 : Env :=
  ⟨false, true, true, fun _ => false, fun _ => false, fun _ => none,
   fun _ _ => .noAnswer, fun _ _ => .noAnswer, none, none, fun _ _ => .exc⟩

/-- Concrete environment for the C7 witness: scapy present, IPv4
literals accepted, every v4 send answered with an ICMP type-0 reply. -/
def envC7 : Env :=
  ⟨true, true, true, fun _ => true, fun _ => false, fun _ => none,
   fun _ _ => .answer true 0, fun _ _ => .answer true, none, none,
   fun _ _ => .exc⟩

/-- Concrete environment for the C8 witness: nothing is an IP literal
and no hostname resolves. -/
def envC8 : Env :=
  ⟨true, true, true, fun _ => false, fun _ => false, fun _ => none,
   fun _ _ => .noAnswer, fun _ _ => .noAnswer, none, none, fun _ _ => .exc⟩

end CA

namespace CA

theorem dnsPingLoop_fst (env : Env) (l : List String) :
    (dnsPingLoop env l).1 = dnsLinesSpec env l := by
  induction l with
  | nil => rfl
  | cons ns rest ih => simp [dnsPingLoop, dnsLinesSpec, scapy_ping_once, ih]

theorem dnsPingLoop_calls (env : Env) (l : List String) :
    (dnsPingLoop env l).2.1 = l := by
  induction l with
  | nil => rfl
  | cons ns rest ih => simp [dnsPingLoop, ih]

theorem userPingLoop_fst (env : Env) (l : List String) :
    (userPingLoop env l).1 = userLinesSpec env l := by
  induction l with
  | nil => rfl
  | cons t rest ih => simp [userPingLoop, userLinesSpec, ih]

theorem userPingLoop_calls (env : Env) (l : List String) :
    (userPingLoop env l).2.1 = l := by
  induction l with
  | nil => rfl
  | cons t rest ih => simp [userPingLoop, ih]

theorem print_pings_t_pingCalls (env : Env) (users dns : List String) :
    (print_pings_t env users dns).pingCalls = dns ++ "8.8.8.8" :: users := by
  cases dns with
  | nil => simp [print_pings_t, userPingLoop_calls]
  | cons d ds =>
      simp [print_pings_t, dnsPingLoop_calls, userPingLoop_calls]

theorem print_pings_t_lines (env : Env) (users dns : List String) :
    (print_pings_t env users dns).lines =
      "" :: "Pinging ..." ::
        ((if dns.isEmpty then ["default DNS Server <none found>: SKIPPED"]
          else dnsLinesSpec env dns)
         ++ ("public DNS Server 8.8.8.8: " ++ (scapy_ping_once env "8.8.8.8" 1).str)
            :: userLinesSpec env users) := by
  cases dns with
  | nil => simp [print_pings_t, userPingLoop_fst, scapy_ping_once]
  | cons d ds =>
      simp [print_pings_t, dnsPingLoop_fst, userPingLoop_fst, scapy_ping_once]

end CA
namespace CA

/-- **C6.** When scapy (the raw-socket/echo capability) is unavailable,
`scapy_ping_once` returns `NO_SCAPY` (the spec's `NO_CAPABILITY`)
immediately for every destination and timeout, with an empty resolution
trace and an empty send trace: the capability check precedes
resolution, so an unavailable capability yields `NO_SCAPY` even for a
target that would otherwise give `RESOLVE_FAIL`. -/
theorem no_capability_short_circuits (env : Env) (dst : String) (tmo : Rat)
    (h : env.scapyAvailable = false) :
    scapy_ping_once_t env dst tmo = ⟨.NO_SCAPY, [], []⟩ := by
  simp [scapy_ping_once_t, h]

/-- Witness for C6: in `envC6` scapy is absent and `example.invalid`
would not resolve, yet the status is `NO_SCAPY` with no resolution and
no send attempted. -/
theorem no_capability_short_circuits_witness :
    scapy_ping_once_t envC6 "example.invalid" 1 = ⟨.NO_SCAPY, [], []⟩ :=
  no_capability_short_circuits envC6 "example.invalid" 1 rfl

/-- **C8.** `_resolve_target` always returns the input itself as the
name; an IPv4 literal (accepted by `inet_aton`) or, failing that, an
IPv6 literal (accepted by `inet_pton(AF_INET6, ...)`) is returned
unchanged as both name and address; otherwise the result is exactly
the `gethostbyname` outcome, with resolution failure collapsed to
`none` (totality of the definition reflects that no exception
escapes). -/
theorem resolve_target_cases (env : Env) (t : String) :
    (_resolve_target env t).1 = t
    ∧ (env.inet_aton_ok t = true → _resolve_target env t = (t, some t))
    ∧ (env.inet_aton_ok t = false → env.inet_pton6_ok t = true →
        _resolve_target env t = (t, some t))
    ∧ (env.inet_aton_ok t = false → env.inet_pton6_ok t = false →
        _resolve_target env t = (t, env.gethostbyname t)) := by
  unfold _resolve_target
  refine ⟨?_, ?_, ?_, ?_⟩
  · split
    · rfl
    · split
      · rfl
      · cases env.gethostbyname t <;> simp
  · intro h; simp [h]
  · intro h1 h2; simp [h1, h2]
  · intro h1 h2
    cases h : env.gethostbyname t <;> simp [h1, h2, h]

/-- Witness for C8: in `envC8` the hostname path is taken and the
result is the `gethostbyname` outcome (`none`, a resolution failure). -/
theorem resolve_target_cases_witness :
    _resolve_target envC8 "example.invalid"
      = ("example.invalid", envC8.gethostbyname "example.invalid") :=
  (resolve_target_cases envC8 "example.invalid").2.2.2 rfl rfl

/-- **C9.** In info-only mode (`no_ping`), no `scapy_ping_once`
invocation and no `sr1` send ever occurs, under any target-list and
quiet configuration; the run reports the banner plus the network-info
snapshot and terminates; and `no_ping` takes precedence over `quiet`:
the run with both flags set is observably identical to the run with
`no_ping` alone. -/
theorem info_only_never_probes (env : Env) (quiet : Bool) (p : Option (List String)) :
    (main_t env ⟨true, quiet, p⟩).pingCalls = []
    ∧ (main_t env ⟨true, quiet, p⟩).sr1Calls = []
    ∧ main_t env ⟨true, quiet, p⟩ = main_t env ⟨true, false, p⟩
    ∧ (main_t env ⟨true, quiet, p⟩).lines = ["", WELCOME] ++ print_network_info_lines env := by
  refine ⟨rfl, rfl, rfl, rfl⟩

/-- **C10.** With an empty discovered DNS-server list, `print_pings`
attempts no probe for any DNS entry, yet the run continues: the fixed
public resolver 8.8.8.8 is still probed and every user-supplied target
is still processed in order, so the `scapy_ping_once` call list is
exactly `8.8.8.8` followed by the user targets, and the report carries
the SKIPPED marker, the public-resolver line, and one line per user
target. -/
theorem empty_dns_list_does_not_truncate (env : Env) (users : List String) :
    (print_pings_t env users []).pingCalls = "8.8.8.8" :: users
    ∧ (print_pings_t env users []).lines =
        "" :: "Pinging ..." :: "default DNS Server <none found>: SKIPPED" ::
          ("public DNS Server 8.8.8.8: " ++ (scapy_ping_once env "8.8.8.8" 1).str)
          :: userLinesSpec env users := by
  constructor
  · simpa using print_pings_t_pingCalls env users []
  · simpa using print_pings_t_lines env users []

end CA
namespace CA

/-- **C1.** `scapy_ping_once` never raises past its boundary: it is a
total function into the fixed closed status set (the `try/except`
ladder is translated as a total match on the collaborator outcome), and
when the send/receive step raises, the status is exactly the
`except`-clause classification: `PermissionError` gives `NO_PERM` (the
spec's `NO_PERMISSION`), as does an `OSError` whose message signals a
raw-socket privilege failure, any other unexpected failure gives
`ERROR`, and an exception is never reported as `FAILED`. -/
theorem scapy_ping_once_total_and_exc (env : Env) (dst : String) (tmo : Rat)
    (ip : String) (e : SR1Exc)
    (hcap : env.scapyAvailable = true)
    (hres : _resolve_target env dst = (dst, some ip))
    (hexc : (_is_ipv6 ip = true ∧ env.sr1v6 ip tmo = .exc e) ∨
            (_is_ipv6 ip = false ∧ env.sr1v4 ip tmo = .exc e)) :
    (∀ (env' : Env) (dst' : String) (tmo' : Rat),
        scapy_ping_once env' dst' tmo' ∈ statusUniverse)
    ∧ scapy_ping_once env dst tmo = classifyExc e
    ∧ classifyExc .permissionError = .NO_PERM
    ∧ (∀ msg, containsSubstr msg "Operation not permitted" = true →
        classifyExc (.osError msg) = .NO_PERM)
    ∧ classifyExc .otherException = .ERROR
    ∧ classifyExc e ≠ .FAILED := by
  refine ⟨?_, ?_, rfl, ?_, rfl, ?_⟩
  · intro env' dst' tmo'
    cases h : scapy_ping_once env' dst' tmo' <;> simp [statusUniverse]
  · rcases hexc with ⟨h6, hsr⟩ | ⟨h6, hsr⟩ <;>
      simp [scapy_ping_once, scapy_ping_once_t, hcap, hres, h6, hsr]
  · intro msg h; simp [classifyExc, h]
  · cases e with
    | permissionError => simp [classifyExc]
    | osError msg =>
        simp only [classifyExc]
        split <;> simp
    | otherException => simp [classifyExc]

/-- Witness for C1: in `envPerm` the send of a v4 probe raises
`PermissionError` and the status is its classification, `NO_PERM`. -/
theorem scapy_ping_once_total_and_exc_witness :
    (∀ (env' : Env) (dst' : String) (tmo' : Rat),
        scapy_ping_once env' dst' tmo' ∈ statusUniverse)
    ∧ scapy_ping_once envPerm "10.0.0.1" 1 = classifyExc .permissionError
    ∧ classifyExc .permissionError = .NO_PERM
    ∧ (∀ msg, containsSubstr msg "Operation not permitted" = true →
        classifyExc (.osError msg) = .NO_PERM)
    ∧ classifyExc .otherException = .ERROR
    ∧ classifyExc SR1Exc.permissionError ≠ .FAILED :=
  scapy_ping_once_total_and_exc envPerm "10.0.0.1" 1 "10.0.0.1" .permissionError
    rfl (by decide) (Or.inr ⟨by decide, rfl⟩)

/-- **C5.** For a user-supplied target under an available capability:
when resolution succeeds with address `ip`, the probe's single send
attempt is addressed to `ip` (in the family chosen from `ip`); when
resolution fails, the status is `RESOLVE_FAIL`, no send is attempted
(empty `sr1` trace — no socket activity), and the report line for the
target is `name: RESOLVE_FAIL`. -/
theorem user_target_resolution_gates_probe (env : Env) (t : String)
    (hcap : env.scapyAvailable = true) :
    (∀ ip, _resolve_target env t = (t, some ip) →
        (scapy_ping_once_t env t 1).sr1Calls = [(_is_ipv6 ip, ip)])
    ∧ (_resolve_target env t = (t, none) →
        scapy_ping_once env t 1 = .RESOLVE_FAIL
        ∧ (scapy_ping_once_t env t 1).sr1Calls = []
        ∧ userLine env t = t ++ ": " ++ Status.RESOLVE_FAIL.str) := by
  constructor
  · intro ip hres
    by_cases h6 : _is_ipv6 ip = true
    · cases hsr : env.sr1v6 ip 1 <;>
        simp [scapy_ping_once_t, hcap, hres, h6, hsr]
    · simp only [Bool.not_eq_true] at h6
      cases hsr : env.sr1v4 ip 1 <;>
        simp [scapy_ping_once_t, hcap, hres, h6, hsr]
  · intro hres
    refine ⟨?_, ?_, ?_⟩
    · simp [scapy_ping_once, scapy_ping_once_t, hcap, hres]
    · simp [scapy_ping_once_t, hcap, hres]
    · simp [userLine, hres, optTruthy, scapy_ping_once, scapy_ping_once_t, hcap]

/-- Witness for C5: in `envC5` the target `example.invalid` does not
resolve; the status is `RESOLVE_FAIL`, the send trace is empty, and the
report line is `example.invalid: RESOLVE_FAIL`. -/
theorem user_target_resolution_gates_probe_witness :
    scapy_ping_once envC5 "example.invalid" 1 = .RESOLVE_FAIL
    ∧ (scapy_ping_once_t envC5 "example.invalid" 1).sr1Calls = []
    ∧ userLine envC5 "example.invalid"
        = "example.invalid" ++ ": " ++ Status.RESOLVE_FAIL.str :=
  (user_target_resolution_gates_probe envC5 "example.invalid" rfl).2 (by decide)

/-- **C7.** For every probe that reaches the send/receive step (scapy
available, resolution succeeded): the address family is chosen by the
presence of `:` in the literal; with no reply before the timeout
(`sr1` returns `None`) the status is `FAILED`; with a reply of the
expected echo-reply type (`ICMPv6EchoReply` layer for v6, ICMP type 0
for v4) it is `OK`; with a reply of any other shape it is `FAILED`. -/
theorem reply_classification (env : Env) (dst : String) (tmo : Rat) (ip : String)
    (hcap : env.scapyAvailable = true)
    (hres : _resolve_target env dst = (dst, some ip)) :
    _is_ipv6 ip = ip.data.contains ':'
    ∧ (_is_ipv6 ip = true →
        (env.sr1v6 ip tmo = .noAnswer → scapy_ping_once env dst tmo = .FAILED)
        ∧ (∀ b, env.sr1v6 ip tmo = .answer b →
            scapy_ping_once env dst tmo = if b then .OK else .FAILED))
    ∧ (_is_ipv6 ip = false →
        (env.sr1v4 ip tmo = .noAnswer → scapy_ping_once env dst tmo = .FAILED)
        ∧ (∀ hI ty, env.sr1v4 ip tmo = .answer hI ty →
            scapy_ping_once env dst tmo = if hI && ty == 0 then .OK else .FAILED)) := by
  refine ⟨rfl, ?_, ?_⟩
  · intro h6
    constructor
    · intro hsr
      simp [scapy_ping_once, scapy_ping_once_t, hcap, hres, h6, hsr]
    · intro b hsr
      simp [scapy_ping_once, scapy_ping_once_t, hcap, hres, h6, hsr]
  · intro h6
    constructor
    · intro hsr
      simp [scapy_ping_once, scapy_ping_once_t, hcap, hres, h6, hsr]
    · intro hI ty hsr
      simp [scapy_ping_once, scapy_ping_once_t, hcap, hres, h6, hsr]

/-- Witness for C7: in `envC7` the v4 probe of `1.2.3.4` is answered
with an ICMP type-0 reply and classified `OK`. -/
theorem reply_classification_witness :
    scapy_ping_once envC7 "1.2.3.4" 1 = if true && (0 : Int) == 0 then .OK else .FAILED :=
  ((reply_classification envC7 "1.2.3.4" 1 "1.2.3.4" rfl (by decide)).2.2
    (by decide)).2 true 0 rfl

end CA
namespace CA

/-- **C2 counterexample.** The claim says a quiet non-info run still
computes the full snapshot (local address, DNS list, public address).
In `envQ` every discovery collaborator is healthy, yet the quiet run's
discovery trace contains neither the local-address nor the public-
address operation; the non-quiet run of the same environment performs
both, so it is only the quiet control flow that skips them. -/
theorem quiet_snapshot_not_fully_computed :
    DiscoveryCall.publicIp ∉ (main_t envQ ⟨false, true, none⟩).discovery
    ∧ DiscoveryCall.localIp ∉ (main_t envQ ⟨false, true, none⟩).discovery
    ∧ (main_t envQ ⟨false, false, none⟩).discovery =
        [.dnsServers, .localIp, .dnsServers, .publicIp] := by
  refine ⟨by decide, by decide, rfl⟩

/-- **C2 (amended).** In a non-info-only run with quiet set, only the
DNS-server discovery is performed (once, in `main`, feeding the probe
target list); local-address and public-address discovery are skipped
along with the snapshot report; and probing proceeds with identical
target ordering, identical send attempts, and an identical ping section
as the corresponding non-quiet run. -/
theorem quiet_run_discovery_and_ordering (env : Env) (p : Option (List String)) :
    (main_t env ⟨false, true, p⟩).discovery = [DiscoveryCall.dnsServers]
    ∧ (main_t env ⟨false, true, p⟩).pingCalls = (main_t env ⟨false, false, p⟩).pingCalls
    ∧ (main_t env ⟨false, true, p⟩).sr1Calls = (main_t env ⟨false, false, p⟩).sr1Calls
    ∧ (main_t env ⟨false, true, p⟩).lines =
        ["", WELCOME] ++ (print_pings_t env (p.getD []) (get_dns_servers env)).lines := by
  refine ⟨rfl, rfl, rfl, rfl⟩

/-- **C3.** In every non-info-only run, the `scapy_ping_once` call list
is exactly the discovered DNS servers in order, then the fixed public
resolver 8.8.8.8, then the user targets in the order given; the ping
report lists the corresponding result lines in the same order; and in
the end-to-end scenario (DNS servers `["192.0.2.53"]`, single
non-resolving user target `example.invalid`) the report is exactly the
`192.0.2.53` result, the `8.8.8.8` result, then
`example.invalid: RESOLVE_FAIL`. -/
theorem probe_order_and_report (env : Env) (quiet : Bool) (p : Option (List String)) :
    (main_t env ⟨false, quiet, p⟩).pingCalls
      = get_dns_servers env ++ ["8.8.8.8"] ++ p.getD []
    ∧ (print_pings_t env (p.getD []) (get_dns_servers env)).lines
      = "" :: "Pinging ..." ::
          ((if (get_dns_servers env).isEmpty
            then ["default DNS Server <none found>: SKIPPED"]
            else dnsLinesSpec env (get_dns_servers env))
           ++ ("public DNS Server 8.8.8.8: " ++ (scapy_ping_once env "8.8.8.8" 1).str)
              :: userLinesSpec env (p.getD []))
    ∧ (print_pings_t envScenario ["example.invalid"] ["192.0.2.53"]).lines
      = ["", "Pinging ...",
         "default DNS Server 192.0.2.53: FAILED",
         "public DNS Server 8.8.8.8: FAILED",
         "example.invalid: RESOLVE_FAIL"] := by
  refine ⟨?_, print_pings_t_lines env (p.getD []) (get_dns_servers env), by decide⟩
  · simpa using print_pings_t_pingCalls env (p.getD []) (get_dns_servers env)

theorem publicLoop_json_continue (env : Env) (tmo : Rat) (url : String)
    (rest : List (String × String))
    (h : jsonFails (env.http url tmo) = true) :
    publicLoop env tmo ((url, "json") :: rest)
      = ((publicLoop env tmo rest).1, url :: (publicLoop env tmo rest).2) := by
  cases hh : env.http url tmo with
  | exc => simp [publicLoop, hh]
  | resp r =>
      rw [hh] at h
      rcases r with ⟨st, ji, tx⟩
      cases st with
      | false => simp [publicLoop, hh]
      | true =>
          rcases ji with _ | (_ | ip)
          · simp [publicLoop, hh]
          · simp [publicLoop, hh]
          · simp only [jsonFails, Bool.not_true, Bool.false_or] at h
            have hip : ip = "" := by simpa using h
            subst hip
            simp [publicLoop, hh]

theorem publicLoop_json_success (env : Env) (tmo : Rat) (url : String)
    (rest : List (String × String)) (r : HttpResp) (ip : String)
    (hh : env.http url tmo = .resp r) (h1 : r.statusOk = true)
    (h2 : r.jsonIp = some (some ip)) (h3 : ip ≠ "") :
    publicLoop env tmo ((url, "json") :: rest) = (some (pyStrip ip), [url]) := by
  rcases r with ⟨st, ji, tx⟩
  simp only at h1 h2
  subst h1
  subst h2
  simp [publicLoop, hh, h3]

theorem publicLoop_text_returns (env : Env) (tmo : Rat) (url : String)
    (rest : List (String × String)) (r : HttpResp)
    (hh : env.http url tmo = .resp r) (h1 : r.statusOk = true) :
    publicLoop env tmo ((url, "text") :: rest) = (some (pyStrip r.text), [url]) := by
  rcases r with ⟨st, ji, tx⟩
  simp only at h1
  subst h1
  simp [publicLoop, hh]

theorem publicLoop_text_continue (env : Env) (tmo : Rat) (url : String)
    (rest : List (String × String))
    (h : textFails (env.http url tmo) = true) :
    publicLoop env tmo ((url, "text") :: rest)
      = ((publicLoop env tmo rest).1, url :: (publicLoop env tmo rest).2) := by
  cases hh : env.http url tmo with
  | exc => simp [publicLoop, hh]
  | resp r =>
      rw [hh] at h
      rcases r with ⟨st, ji, tx⟩
      cases st with
      | false => simp [publicLoop, hh]
      | true => simp [textFails] at h

/-- **C4 counterexample.** The claim classifies an empty value as a
per-endpoint failure after which the loop continues to the next
endpoint, returning `none` when all endpoints fail.  In `envEmptyText`
both JSON endpoints fail with a network error and the text endpoint
answers a good status with a whitespace-only body — no endpoint
produces a usable value — yet `get_public_ip` returns `some ""` (the
trimmed empty body), not `none`: the plain-text endpoint has no
emptiness check. -/
theorem get_public_ip_empty_text_cex :
    get_public_ip envEmptyText 3 = some ""
    ∧ get_public_ip envEmptyText 3 ≠ none := by
  refine ⟨by decide, by decide⟩

/-- **C4 (amended).** `get_public_ip` tries its fixed endpoint list in
order, returns the first endpoint's value on success without querying
the remaining endpoints, and returns `none` when the HTTP capability is
unavailable; a JSON endpoint's per-endpoint failure — network error,
bad HTTP status, malformed body, or empty/missing `ip` value — makes it
continue to the next endpoint; the final plain-text endpoint, however,
returns its trimmed body whenever the HTTP status is good, even when
that body is empty, and only a network error or bad status there makes
the whole lookup yield `none`. -/
theorem get_public_ip_ordered (env : Env) (tmo : Rat) :
    (env.requestsAvailable = false → get_public_ip_t env tmo = (none, []))
    ∧ (env.requestsAvailable = true →
        (∀ r ip, env.http url1 tmo = .resp r → r.statusOk = true →
            r.jsonIp = some (some ip) → ip ≠ "" →
            get_public_ip_t env tmo = (some (pyStrip ip), [url1]))
        ∧ (∀ r ip, jsonFails (env.http url1 tmo) = true →
            env.http url2 tmo = .resp r → r.statusOk = true →
            r.jsonIp = some (some ip) → ip ≠ "" →
            get_public_ip_t env tmo = (some (pyStrip ip), [url1, url2]))
        ∧ (∀ r, jsonFails (env.http url1 tmo) = true →
            jsonFails (env.http url2 tmo) = true →
            env.http url3 tmo = .resp r → r.statusOk = true →
            get_public_ip_t env tmo = (some (pyStrip r.text), [url1, url2, url3]))
        ∧ (jsonFails (env.http url1 tmo) = true →
            jsonFails (env.http url2 tmo) = true →
            textFails (env.http url3 tmo) = true →
            get_public_ip_t env tmo = (none, [url1, url2, url3]))) := by
  constructor
  · intro h; simp [get_public_ip_t, h]
  · intro hreq
    have hmain : get_public_ip_t env tmo
        = publicLoop env tmo [(url1, "json"), (url2, "json"), (url3, "text")] := by
      simp [get_public_ip_t, hreq, publicEndpoints, url1, url2, url3]
    refine ⟨?_, ?_, ?_, ?_⟩
    · intro r ip hh h1 h2 h3
      rw [hmain, publicLoop_json_success env tmo url1 _ r ip hh h1 h2 h3]
    · intro r ip hf1 hh h1 h2 h3
      rw [hmain, publicLoop_json_continue env tmo url1 _ hf1,
        publicLoop_json_success env tmo url2 _ r ip hh h1 h2 h3]
    · intro r hf1 hf2 hh h1
      rw [hmain, publicLoop_json_continue env tmo url1 _ hf1,
        publicLoop_json_continue env tmo url2 _ hf2,
        publicLoop_text_returns env tmo url3 _ r hh h1]
    · intro hf1 hf2 hf3
      rw [hmain, publicLoop_json_continue env tmo url1 _ hf1,
        publicLoop_json_continue env tmo url2 _ hf2,
        publicLoop_text_continue env tmo url3 _ hf3]
      rfl

/-- Witness for C4 (amended): in `envSecond`, endpoint 1 fails with a
network error and endpoint 2 succeeds; the value is endpoint 2's and
the queried list is `[url1, url2]` — endpoint 3 is never queried. -/
theorem get_public_ip_ordered_witness :
    get_public_ip_t envSecond 3 = (some (pyStrip "203.0.113.7"), [url1, url2]) :=
  ((get_public_ip_ordered envSecond 3).2 rfl).2.1
    ⟨true, some (some "203.0.113.7"), ""⟩ "203.0.113.7"
    (by decide) (by decide) rfl rfl (by decide)

end CA
